import Mathlib

/-!
# Verification of the CI helper scripts

Shallow embedding of the four query-and-extract command-line scripts in
`.github/scripts/` (`get_issue_milestone.py`, `get_milestone_number.py`,
`get_milestone_open_issues.py`, `get_project_name.py`).

Each script is modelled as a pure function from its inputs (command-line
arguments and the HTTP response, or for the paginated script a function
from request parameters to responses) to a run record containing the lines
written to standard output, the lines written to the diagnostic stream,
and the final outcome (normal exit or uncaught exception).  The paginated
`while` loop of `get_milestone_number.py` is embedded with explicit fuel,
since the Python loop does not terminate on a server that keeps answering
non-empty match-free pages.
-/

/-- A JSON value, as produced by `response.json()`.  Objects keep their
fields in insertion order, matching Python dicts. -/
inductive Json where
  | null : Json
  | num : Int → Json
  | str : String → Json
  | arr : List Json → Json
  | obj : List (String × Json) → Json

/-- Python `v[k]` on a decoded JSON value: a key lookup that raises
`KeyError` when the key is absent and `TypeError` when the value is not a
dict. -/
def Json.lookup : Json → String → Except String Json
  | .obj fields, k =>
      match fields.find? (fun p => p.1 == k) with
      | some p => .ok p.2
      | none => .error ("KeyError: " ++ k)
  | _, _ => .error "TypeError: value is not subscriptable"

/-- Python `v is None` on a decoded JSON value: only JSON `null` decodes
to the `None` singleton. -/
def Json.isNull : Json → Bool
  | .null => true
  | _ => false

/-- Python falsiness (`not r`) of a decoded JSON value: `None`, `0`, the
empty string, the empty list and the empty dict are falsy. -/
def pyFalsy : Json → Bool
  | .null => true
  | .num n => n == 0
  | .str s => s == ""
  | .arr xs => xs.isEmpty
  | .obj fs => fs.isEmpty

/-- Python iteration (`for x in r`) over a decoded JSON value: lists yield
their elements, dicts their keys, strings their characters; numbers and
`None` raise `TypeError`. -/
def pyIter : Json → Except String (List Json)
  | .arr xs => .ok xs
  | .obj fs => .ok (fs.map (fun p => Json.str p.1))
  | .str s => .ok (s.data.map (fun c => Json.str (String.mk [c])))
  | _ => .error "TypeError: value is not iterable"

/-- Python `str(v)` as used by `print(v)`.  The scripts only ever print
scalar fields (milestone numbers, issue counts, names); compound values
are abbreviated rather than rendered with Python's full repr. -/
def pyStr : Json → String
  | .null => "None"
  | .num n => toString n
  | .str s => s
  | .arr _ => "<list>"
  | .obj _ => "<dict>"

/-- Python `v == s` where `s` is a `str`: equal exactly when `v` is the
same string; values of any other type compare unequal without error. -/
def pyEqStr (v : Json) (s : String) : Bool :=
  match v with
  | .str t => t == s
  | _ => false

/-- Wrap a string in single quotes, as the f-string diagnostics do. -/
def pyQuote (s : String) : String := "\x27" ++ s ++ "\x27"

/-- An HTTP response: status code and decoded JSON body. -/
structure Response where
  status : Nat
  body : Json

/-- How a script run ended: normal exit (code 0) or an uncaught exception
carrying its message (non-zero exit code). -/
inductive ScriptResult where
  | ok : ScriptResult
  | exn : String → ScriptResult
deriving DecidableEq

/-- Observable behaviour of one run of a single-request script: the lines
printed to standard output, the lines printed to the error stream, and the
outcome. -/
structure ScriptRun where
  stdout : List String
  stderr : List String
  result : ScriptResult

/-- `get_issue_milestone.py`: fetch the issue at `url`, then print the
milestone number (if any) to standard output. -/
def get_issue_milestone (url : String) (resp : Response) : ScriptRun :=
  let hdr := ["Fetching milestone of issue at " ++ pyQuote url]
  if resp.status ≠ 200 then
    ⟨[], hdr, .exn ("HTTP request failed: code " ++ toString resp.status)⟩
  else
    match resp.body.lookup "milestone" with
    | .error e => ⟨[], hdr, .exn e⟩
    | .ok m =>
      if m.isNull then
        ⟨[], hdr ++ ["Issue not currently associated with a milestone."], .ok⟩
      else
        match m.lookup "number" with
        | .error e => ⟨[], hdr, .exn e⟩
        | .ok number =>
          match m.lookup "title" with
          | .error e => ⟨[], hdr, .exn e⟩
          | .ok name =>
            ⟨[pyStr number],
             hdr ++ ["Current Milestone: " ++ pyStr number ++ " (" ++ pyStr name ++ ")"],
             .ok⟩

/-- `get_milestone_open_issues.py`: fetch the milestone detail resource
and print its `open_issues` count. -/
def get_milestone_open_issues (number repo : String) (resp : Response) : ScriptRun :=
  let hdr := ["Fetching open issues of milestone " ++ number ++ " of repo " ++ pyQuote repo]
  if resp.status ≠ 200 then
    ⟨[], hdr, .exn ("HTTP request failed: code " ++ toString resp.status)⟩
  else
    match resp.body.lookup "open_issues" with
    | .error e => ⟨[], hdr, .exn e⟩
    | .ok open_issues =>
      ⟨[pyStr open_issues], hdr ++ ["Open issues: " ++ pyStr open_issues], .ok⟩

/-- `get_project_name.py`: fetch the project resource and print its
`name`. -/
def get_project_name (url : String) (resp : Response) : ScriptRun :=
  let hdr := ["Fetching name of project at " ++ pyQuote url]
  if resp.status ≠ 200 then
    ⟨[], hdr, .exn ("HTTP request failed: code " ++ toString resp.status)⟩
  else
    match resp.body.lookup "name" with
    | .error e => ⟨[], hdr, .exn e⟩
    | .ok name =>
      ⟨[pyStr name], hdr ++ ["Project name: " ++ pyStr name], .ok⟩

/-- The query parameters of one page request issued by
`get_milestone_number.py`. -/
structure PageParams where
  state : String
  sort : String
  direction : String
  per_page : Nat
  page : Nat
deriving DecidableEq

/-- The params dict built on each iteration of the pagination loop:
everything fixed except the page index. -/
def mkParams (state : String) (page : Nat) : PageParams :=
  { state := state, sort := "due_on", direction := "asc", per_page := 100, page := page }

/-- The `for milestone in r` scan of one page.  `num` threads the
`number` variable (a later match on the same page overwrites an earlier
one — the loop has no `break`).  Returns the final `number` together with
the stderr lines printed, or the exception raised mid-scan together with
the stderr lines already printed before it. -/
def scanPage (title : String) : List Json → Option Json →
    Except (String × List String) (Option Json × List String)
  | [], num => .ok (num, [])
  | m :: rest, num =>
    match m.lookup "title" with
    | .error e => .error (e, [])
    | .ok t =>
      if pyEqStr t title then
        match m.lookup "number" with
        | .error e => .error (e, [])
        | .ok n =>
          match scanPage title rest (some n) with
          | .error p => .error (p.1, ("Milestone number: " ++ pyStr n) :: p.2)
          | .ok p => .ok (p.1, ("Milestone number: " ++ pyStr n) :: p.2)
      else
        scanPage title rest num

/-- Outcome of processing one page response inside the loop body: either
the loop stops (exception raised, or a match found and the `while`
condition fails), or it proceeds to the next page. -/
inductive StepOut where
  | stop : List String → Except String Json → StepOut
  | next : List String → StepOut

/-- One iteration of the pagination loop body of
`get_milestone_number.py`, applied to the response for the current page:
the status check, the empty-page (`not r`) check, and the title scan. -/
def pageStep (title : String) (resp : Response) : StepOut :=
  if resp.status ≠ 200 then
    .stop [] (.error ("HTTP request failed: code " ++ toString resp.status))
  else if pyFalsy resp.body then
    .stop [] (.error "Milestone not found")
  else
    match pyIter resp.body with
    | .error e => .stop [] (.error e)
    | .ok items =>
      match scanPage title items none with
      | .error p => .stop p.2 (.error p.1)
      | .ok (some n, lines) => .stop lines (.ok n)
      | .ok (none, lines) => .next lines

/-- Result of running the pagination loop: the page requests issued in
order, the stderr lines printed, and either the found number or the
exception raised. -/
structure LoopOut where
  requests : List PageParams
  stderr : List String
  result : Except String Json

/-- The `while number is None` pagination loop, with explicit fuel
(`none` means the fuel ran out before the loop stopped; the Python loop
would still be running). `page` is the current page index, starting at 1. -/
def msLoop (title state : String) (server : PageParams → Response) :
    Nat → Nat → Option LoopOut
  | 0, _ => none
  | fuel + 1, page =>
    let req := mkParams state page
    match pageStep title (server req) with
    | .stop lines res => some ⟨[req], lines, res⟩
    | .next lines =>
      match msLoop title state server fuel (page + 1) with
      | none => none
      | some out => some ⟨req :: out.requests, lines ++ out.stderr, out.result⟩

/-- Observable behaviour of one run of `get_milestone_number.py`,
including the trace of page requests it issued. -/
structure MsRun where
  requests : List PageParams
  stdout : List String
  stderr : List String
  result : ScriptResult

/-- `get_milestone_number.py`: resolve a milestone title to its number by
paging through the milestone list endpoint.  `server` gives the response
for each set of request parameters; `fuel` bounds the number of loop
iterations modelled (`none` = still looping). -/
def get_milestone_number (fuel : Nat) (title state repo : String)
    (server : PageParams → Response) : Option MsRun :=
  let hdr := ["Fetching number of milestone " ++ pyQuote title ++ " of repo " ++ pyQuote repo]
  match msLoop title state server fuel 1 with
  | none => none
  | some out =>
    match out.result with
    | .error e => some ⟨out.requests, [], hdr ++ out.stderr, .exn e⟩
    | .ok n => some ⟨out.requests, [pyStr n], hdr ++ out.stderr, .ok⟩

/-! ## Predicates on pages -/

/-- Whether an `Except` lookup succeeded. -/
def exOk : Except String Json → Bool
  | .ok _ => true
  | .error _ => false

/-- Whether one milestone record matches the searched title: its `title`
field exists and equals the input string. -/
def isMatch (title : String) (m : Json) : Bool :=
  match m.lookup "title" with
  | .ok t => pyEqStr t title
  | .error _ => false

/-- Whether a page contains a milestone whose `title` equals the input. -/
def hasMatch (title : String) (ms : List Json) : Bool := ms.any (isMatch title)

/-- Every record on the page has a `title` field (so the scan raises no
`KeyError` on `milestone["title"]`). -/
def titlesOk (ms : List Json) : Bool := ms.all (fun m => exOk (m.lookup "title"))

/-- The page scans without an exception: every record has a `title`
field, and every matching record also has a `number` field. -/
def scanOk (title : String) (ms : List Json) : Bool :=
  ms.all fun m =>
    match m.lookup "title" with
    | .error _ => false
    | .ok t => !pyEqStr t title || exOk (m.lookup "number")

/-- The `number` field of a record, when the record matches the title. -/
def matchNum (title : String) (m : Json) : Option Json :=
  match m.lookup "title", m.lookup "number" with
  | .ok t, .ok n => if pyEqStr t title then some n else none
  | _, _ => none

/-- The value the `number` variable holds after scanning the page
starting from `acc`: the `number` of the last matching record, if any. -/
def lastMatchNum (title : String) (ms : List Json) (acc : Option Json) : Option Json :=
  match ms with
  | [] => acc
  | m :: rest =>
    lastMatchNum title rest
      (match matchNum title m with | some n => some n | none => acc)

/-! ## Lemmas about the page scan -/

theorem scan_clean (title : String) (ms : List Json) (acc : Option Json)
    (ht : titlesOk ms = true) (hm : hasMatch title ms = false) :
    scanPage title ms acc = .ok (acc, []) := by
  induction ms generalizing acc with
  | nil => rfl
  | cons m rest ih =>
    rw [titlesOk, List.all_cons, Bool.and_eq_true] at ht
    rw [hasMatch, List.any_cons, Bool.or_eq_false_iff] at hm
    cases hlk : m.lookup "title" with
    | error e => rw [exOk.eq_def, hlk] at ht; exact absurd ht.1 (by simp)
    | ok t =>
      have heq : pyEqStr t title = false := by
        have := hm.1; rwa [isMatch, hlk] at this
      rw [scanPage, hlk]
      simp only [heq, Bool.false_eq_true, if_false]
      exact ih acc ht.2 hm.2

theorem scan_preserves_some (title : String) (ms : List Json) (n : Json)
    (p : Option Json × List String)
    (h : scanPage title ms (some n) = .ok p) : p.1.isSome = true := by
  induction ms generalizing n p with
  | nil =>
    rw [scanPage] at h
    cases h
    rfl
  | cons m rest ih =>
    rw [scanPage] at h
    cases hlk : m.lookup "title" with
    | error e => simp only [hlk] at h; cases h
    | ok t =>
      simp only [hlk] at h
      cases heq : pyEqStr t title with
      | false =>
        simp only [heq, Bool.false_eq_true, if_false] at h
        exact ih n p h
      | true =>
        simp only [heq, if_true] at h
        cases hnum : m.lookup "number" with
        | error e => simp only [hnum] at h; cases h
        | ok n2 =>
          simp only [hnum] at h
          cases hs : scanPage title rest (some n2) with
          | error q => simp only [hs] at h; cases h
          | ok q =>
            simp only [hs, Except.ok.injEq] at h
            have := ih n2 q hs
            rw [← h, this]

theorem scan_some_of_match (title : String) (ms : List Json)
    (acc : Option Json) (p : Option Json × List String)
    (hm : hasMatch title ms = true)
    (h : scanPage title ms acc = .ok p) : p.1.isSome = true := by
  induction ms generalizing acc p with
  | nil => rw [hasMatch] at hm; cases hm
  | cons m rest ih =>
    rw [hasMatch, List.any_cons, Bool.or_eq_true] at hm
    rw [scanPage] at h
    cases hlk : m.lookup "title" with
    | error e => simp only [hlk] at h; cases h
    | ok t =>
      simp only [hlk] at h
      cases heq : pyEqStr t title with
      | true =>
        simp only [heq, if_true] at h
        cases hnum : m.lookup "number" with
        | error e => simp only [hnum] at h; cases h
        | ok n2 =>
          simp only [hnum] at h
          cases hs : scanPage title rest (some n2) with
          | error q => simp only [hs] at h; cases h
          | ok q =>
            simp only [hs, Except.ok.injEq] at h
            have := scan_preserves_some title rest n2 q hs
            rw [← h, this]
      | false =>
        simp only [heq, Bool.false_eq_true, if_false] at h
        have hm2 : hasMatch title rest = true := by
          rcases hm with hm1 | hm2
          · simp only [isMatch, hlk, heq] at hm1; cases hm1
          · exact hm2
        exact ih acc p hm2 h

theorem scan_of_scanOk (title : String) (ms : List Json) (acc : Option Json)
    (h : scanOk title ms = true) :
    ∃ lines, scanPage title ms acc = .ok (lastMatchNum title ms acc, lines) := by
  induction ms generalizing acc with
  | nil => exact ⟨[], rfl⟩
  | cons m rest ih =>
    rw [scanOk, List.all_cons, Bool.and_eq_true] at h
    obtain ⟨h1, h2⟩ := h
    cases hlk : m.lookup "title" with
    | error e => simp only [hlk] at h1; cases h1
    | ok t =>
      simp only [hlk] at h1
      rw [scanPage]
      simp only [hlk]
      cases heq : pyEqStr t title with
      | false =>
        simp only [heq, Bool.false_eq_true, if_false]
        have hmn : matchNum title m = none := by
          rw [matchNum]
          cases m.lookup "number" <;> simp [hlk, heq]
        rw [lastMatchNum, hmn]
        exact ih acc h2
      | true =>
        have hn : exOk (m.lookup "number") = true := by
          rw [heq] at h1
          simpa using h1
        cases hnum : m.lookup "number" with
        | error e => rw [hnum, exOk] at hn; cases hn
        | ok n =>
          simp only [heq, if_true, hnum]
          obtain ⟨lines, hrec⟩ := ih (some n) h2
          rw [hrec]
          refine ⟨("Milestone number: " ++ pyStr n) :: lines, ?_⟩
          have hmn : matchNum title m = some n := by
            rw [matchNum]
            simp [hlk, hnum, heq]
          rw [lastMatchNum, hmn]

/-! ## Lemmas about one loop iteration -/

theorem pageStep_non200 (title : String) (resp : Response) (h : resp.status ≠ 200) :
    pageStep title resp =
      .stop [] (.error ("HTTP request failed: code " ++ toString resp.status)) := by
  rw [pageStep, if_pos h]

theorem pageStep_empty (title : String) (resp : Response)
    (h200 : resp.status = 200) (hb : resp.body = Json.arr []) :
    pageStep title resp = .stop [] (.error "Milestone not found") := by
  rw [pageStep, if_neg (by simp [h200]), hb]
  rw [if_pos (by rw [pyFalsy]; rfl)]

theorem pageStep_continue (title : String) (resp : Response) (ms : List Json)
    (h200 : resp.status = 200) (hb : resp.body = Json.arr ms) (hne : ms ≠ [])
    (ht : titlesOk ms = true) (hm : hasMatch title ms = false) :
    pageStep title resp = .next [] := by
  rw [pageStep, if_neg (by simp [h200]), hb]
  rw [if_neg (by rw [pyFalsy]; simp [hne])]
  rw [pyIter]
  simp only [scan_clean title ms none ht hm]

theorem pageStep_match (title : String) (resp : Response) (ms : List Json) (n : Json)
    (h200 : resp.status = 200) (hb : resp.body = Json.arr ms)
    (hok : scanOk title ms = true) (hm : hasMatch title ms = true)
    (hn : lastMatchNum title ms none = some n) :
    ∃ lines, pageStep title resp = .stop lines (.ok n) := by
  have hne : ms ≠ [] := by
    intro he
    rw [he, hasMatch] at hm
    cases hm
  obtain ⟨lines, hscan⟩ := scan_of_scanOk title ms none hok
  rw [hn] at hscan
  refine ⟨lines, ?_⟩
  rw [pageStep, if_neg (by simp [h200]), hb]
  rw [if_neg (by rw [pyFalsy]; simp [hne])]
  rw [pyIter]
  simp only [hscan]

theorem pageStep_stops (title : String) (resp : Response)
    (h : resp.body = Json.arr [] ∨
      ∃ ms, resp.body = Json.arr ms ∧ hasMatch title ms = true) :
    ∃ lines res, pageStep title resp = .stop lines res := by
  by_cases hst : resp.status = 200
  · rcases h with hb | ⟨ms, hb, hm⟩
    · exact ⟨[], _, pageStep_empty title resp hst hb⟩
    · have hne : ms ≠ [] := by
        intro he
        rw [he, hasMatch] at hm
        cases hm
      rw [pageStep, if_neg (by simp [hst]), hb]
      rw [if_neg (by rw [pyFalsy]; simp [hne])]
      rw [pyIter]
      cases hs : scanPage title ms none with
      | error p => exact ⟨p.2, .error p.1, by simp [hs]⟩
      | ok p =>
        have hsome := scan_some_of_match title ms none p hm hs
        obtain ⟨n, hn⟩ := Option.isSome_iff_exists.mp hsome
        obtain ⟨o, lines⟩ := p
        simp only at hn
        subst hn
        exact ⟨lines, .ok n, by simp [hs]⟩
  · exact ⟨[], _, pageStep_non200 title resp hst⟩

/-! ## Lemmas about the pagination loop -/

theorem cons_range_map {α : Type} (f : Nat → α) (page k : Nat) :
    f page :: (List.range k).map (fun i => f (page + 1 + i)) =
      (List.range (k + 1)).map (fun i => f (page + i)) := by
  have hf : ((fun i => f (page + i)) ∘ Nat.succ) = fun i => f (page + 1 + i) := by
    funext i
    simp only [Function.comp_apply]
    congr 1
    omega
  rw [List.range_succ_eq_map]
  simp only [List.map_cons, List.map_map, Nat.add_zero, hf]

theorem msLoop_trace (title state : String) (server : PageParams → Response)
    (fuel page : Nat) (out : LoopOut)
    (h : msLoop title state server fuel page = some out) :
    ∃ k, 1 ≤ k ∧
      out.requests = (List.range k).map (fun i => mkParams state (page + i)) := by
  induction fuel generalizing page out with
  | zero => rw [msLoop] at h; cases h
  | succ fuel ih =>
    rw [msLoop] at h
    cases hps : pageStep title (server (mkParams state page)) with
    | stop lines res =>
      simp only [hps] at h
      cases h
      refine ⟨1, le_refl 1, ?_⟩
      simp [List.range_succ]
    | next lines =>
      simp only [hps] at h
      cases hrec : msLoop title state server fuel (page + 1) with
      | none => simp only [hrec] at h; cases h
      | some out2 =>
        simp only [hrec, Option.some.injEq] at h
        cases h
        obtain ⟨k, hk1, hk2⟩ := ih (page + 1) out2 hrec
        refine ⟨k + 1, by omega, ?_⟩
        simp only [hk2]
        exact cons_range_map (fun i => mkParams state i) page k

/-- The loop passes page `q` without stopping: the response is a 200
non-empty list whose records all have titles and none matches. -/
def continuesAt (title state : String) (server : PageParams → Response) (q : Nat) : Prop :=
  pageStep title (server (mkParams state q)) = .next []

theorem msLoop_clean (title state : String) (server : PageParams → Response)
    (d : Nat) (lines : List String) (res : Except String Json) :
    ∀ page : Nat,
    (∀ q, page ≤ q → q < page + d → continuesAt title state server q) →
    pageStep title (server (mkParams state (page + d))) = .stop lines res →
    msLoop title state server (d + 1) page =
      some ⟨(List.range (d + 1)).map (fun i => mkParams state (page + i)), lines, res⟩ := by
  induction d with
  | zero =>
    intro page _ hstop
    rw [Nat.add_zero] at hstop
    rw [msLoop]
    simp only [hstop]
    simp [List.range_succ]
  | succ d ih =>
    intro page hclean hstop
    have hc : continuesAt title state server page :=
      hclean page (le_refl page) (by omega)
    rw [continuesAt] at hc
    rw [msLoop]
    simp only [hc]
    have hstop2 : pageStep title (server (mkParams state (page + 1 + d))) = .stop lines res := by
      have he : page + 1 + d = page + (d + 1) := by omega
      rw [he]
      exact hstop
    have ih2 := ih (page + 1) (fun q hq1 hq2 => hclean q (by omega) (by omega)) hstop2
    rw [ih2]
    simp only [List.nil_append, Option.some.injEq]
    refine congrArg (fun rs => (⟨rs, lines, res⟩ : LoopOut)) ?_
    exact cons_range_map (fun i => mkParams state i) page (d + 1)

theorem msLoop_non200 (title state : String) (server : PageParams → Response)
    (fuel : Nat) :
    ∀ (page : Nat) (out : LoopOut) (req : PageParams),
    msLoop title state server fuel page = some out →
    req ∈ out.requests → (server req).status ≠ 200 →
    out.result = .error ("HTTP request failed: code " ++ toString (server req).status) := by
  induction fuel with
  | zero => intro page out req h _ _; rw [msLoop] at h; cases h
  | succ fuel ih =>
    intro page out req h hmem hst
    rw [msLoop] at h
    cases hps : pageStep title (server (mkParams state page)) with
    | stop lines res =>
      simp only [hps] at h
      cases h
      simp only [List.mem_singleton] at hmem
      subst hmem
      rw [pageStep_non200 title _ hst] at hps
      cases hps
      rfl
    | next lines =>
      simp only [hps] at h
      cases hrec : msLoop title state server fuel (page + 1) with
      | none => simp only [hrec] at h; cases h
      | some out2 =>
        simp only [hrec, Option.some.injEq] at h
        cases h
        simp only [List.mem_cons] at hmem
        rcases hmem with rfl | hmem2
        · exfalso
          rw [pageStep_non200 title _ hst] at hps
          cases hps
        · exact ih (page + 1) out2 req hrec hmem2 hst

theorem msLoop_stops (title state : String) (server : PageParams → Response)
    (n : Nat) :
    ∀ page : Nat,
    ((server (mkParams state (page + n))).body = Json.arr [] ∨
      ∃ ms, (server (mkParams state (page + n))).body = Json.arr ms ∧
        hasMatch title ms = true) →
    (msLoop title state server (n + 1) page).isSome = true := by
  induction n with
  | zero =>
    intro page h
    rw [Nat.add_zero] at h
    obtain ⟨lines, res, hstop⟩ := pageStep_stops title _ h
    rw [msLoop]
    simp only [hstop]
    rfl
  | succ n ih =>
    intro page h
    rw [msLoop]
    cases hps : pageStep title (server (mkParams state page)) with
    | stop lines res => simp only [hps]; rfl
    | next lines =>
      simp only [hps]
      have h2 : (server (mkParams state (page + 1 + n))).body = Json.arr [] ∨
          ∃ ms, (server (mkParams state (page + 1 + n))).body = Json.arr ms ∧
            hasMatch title ms = true := by
        have he : page + 1 + n = page + (n + 1) := by omega
        rw [he]
        exact h
      have hsome := ih (page + 1) h2
      cases hrec : msLoop title state server (n + 1) (page + 1) with
      | none => rw [hrec] at hsome; cases hsome
      | some out2 => simp only [hrec]; rfl

/-- Any terminating run of `get_milestone_number` comes from a terminating
loop run with the same request trace, and the final print mirrors the
loop's outcome: nothing on stdout for an exception, exactly the found
number for success. -/
theorem gmn_unfold (fuel : Nat) (t s r : String) (srv : PageParams → Response)
    (run : MsRun) (h : get_milestone_number fuel t s r srv = some run) :
    ∃ out, msLoop t s srv fuel 1 = some out ∧ run.requests = out.requests ∧
      ((∃ e, out.result = .error e ∧ run.stdout = [] ∧ run.result = .exn e) ∨
       (∃ n, out.result = .ok n ∧ run.stdout = [pyStr n] ∧ run.result = .ok)) := by
  rw [get_milestone_number] at h
  cases hl : msLoop t s srv fuel 1 with
  | none => simp only [hl] at h; cases h
  | some out =>
    simp only [hl] at h
    cases hres : out.result with
    | error e =>
      simp only [hres] at h
      cases h
      exact ⟨out, rfl, rfl, .inl ⟨e, hres, rfl, rfl⟩⟩
    | ok n =>
      simp only [hres] at h
      cases h
      exact ⟨out, rfl, rfl, .inr ⟨n, hres, rfl, rfl⟩⟩

/-! ## Claims -/

/-- C1: for every issue response with HTTP status 200 whose `milestone`
field is a non-null milestone object (carrying its `number` and `title`
fields, as the data model prescribes), the issue-milestone lookup prints
exactly the integer value of that milestone's `number` field as its only
standard-output line, and exits normally. -/
theorem C1_issue_milestone_prints_number (url : String) (resp : Response)
    (m : Json) (n : Int) (t : String)
    (h200 : resp.status = 200)
    (hm : resp.body.lookup "milestone" = .ok m)
    (hnn : m.isNull = false)
    (hnum : m.lookup "number" = .ok (Json.num n))
    (htitle : m.lookup "title" = .ok (Json.str t)) :
    (get_issue_milestone url resp).stdout = [toString n] ∧
    (get_issue_milestone url resp).result = .ok := by
  rw [get_issue_milestone]
  simp [h200, hm, hnn, hnum, htitle, pyStr]

theorem C1_witness :
    (get_issue_milestone "u" ⟨200, Json.obj [("milestone",
        Json.obj [("number", Json.num 5), ("title", Json.str "v1")])]⟩).stdout = ["5"] ∧
    (get_issue_milestone "u" ⟨200, Json.obj [("milestone",
        Json.obj [("number", Json.num 5), ("title", Json.str "v1")])]⟩).result = .ok :=
  C1_issue_milestone_prints_number "u" _
    (Json.obj [("number", Json.num 5), ("title", Json.str "v1")]) 5 "v1"
    rfl rfl rfl rfl rfl

/-- C6: for every issue response with HTTP status 200 whose `milestone`
field is null, the issue-milestone lookup writes nothing to standard
output, writes a human-readable notice to the diagnostic stream, and
exits normally. -/
theorem C6_null_milestone_notice (url : String) (resp : Response)
    (h200 : resp.status = 200)
    (hm : resp.body.lookup "milestone" = .ok Json.null) :
    (get_issue_milestone url resp).stdout = [] ∧
    "Issue not currently associated with a milestone." ∈
      (get_issue_milestone url resp).stderr ∧
    (get_issue_milestone url resp).result = .ok := by
  rw [get_issue_milestone]
  simp [h200, hm, Json.isNull]

theorem C6_witness :
    (get_issue_milestone "u" ⟨200, Json.obj [("milestone", Json.null)]⟩).stdout = [] ∧
    "Issue not currently associated with a milestone." ∈
      (get_issue_milestone "u" ⟨200, Json.obj [("milestone", Json.null)]⟩).stderr ∧
    (get_issue_milestone "u" ⟨200, Json.obj [("milestone", Json.null)]⟩).result = .ok :=
  C6_null_milestone_notice "u" _ rfl rfl

/-- C9: for every issue response with HTTP status 200 whose `milestone`
field is a non-null object that contains `number` but lacks the `title`
key, the issue-milestone lookup aborts with an uncaught `KeyError` on
`title` and prints nothing to standard output: the `title` field is read
for the diagnostic line before the number is printed. -/
theorem C9_missing_title_aborts (url : String) (resp : Response)
    (fs : List (String × Json)) (n : Json)
    (h200 : resp.status = 200)
    (hm : resp.body.lookup "milestone" = .ok (Json.obj fs))
    (hnum : (Json.obj fs).lookup "number" = .ok n)
    (htitle : fs.find? (fun p => p.1 == "title") = none) :
    (get_issue_milestone url resp).stdout = [] ∧
    (get_issue_milestone url resp).result = .exn ("KeyError: " ++ "title") := by
  have ht : (Json.obj fs).lookup "title" = .error ("KeyError: " ++ "title") := by
    rw [Json.lookup, htitle]
  rw [get_issue_milestone]
  simp [h200, hm, hnum, ht, Json.isNull]

theorem C9_witness :
    (get_issue_milestone "u" ⟨200, Json.obj [("milestone",
        Json.obj [("number", Json.num 5)])]⟩).stdout = [] ∧
    (get_issue_milestone "u" ⟨200, Json.obj [("milestone",
        Json.obj [("number", Json.num 5)])]⟩).result = .exn ("KeyError: " ++ "title") :=
  C9_missing_title_aborts "u" _ [("number", Json.num 5)] (Json.num 5) rfl rfl rfl rfl

/-- C8: for every milestone-detail response with HTTP status 200, the
open-issue count script prints exactly the value of the `open_issues`
field to standard output and exits normally; in particular, for milestone
number 7 with `open_issues: 4`, standard output is exactly `4`. -/
theorem C8_open_issues_printed :
    (∀ (number repo : String) (resp : Response) (v : Json),
      resp.status = 200 →
      resp.body.lookup "open_issues" = .ok v →
      (get_milestone_open_issues number repo resp).stdout = [pyStr v] ∧
      (get_milestone_open_issues number repo resp).result = .ok) ∧
    (get_milestone_open_issues "7" "me/repo"
        ⟨200, Json.obj [("open_issues", Json.num 4)]⟩).stdout = ["4"] := by
  constructor
  · intro number repo resp v h200 hv
    rw [get_milestone_open_issues]
    simp [h200, hv]
  · rfl

theorem C8_witness :
    (get_milestone_open_issues "7" "me/repo"
        ⟨200, Json.obj [("open_issues", Json.num 4)]⟩).stdout =
      [pyStr (Json.num 4)] ∧
    (get_milestone_open_issues "7" "me/repo"
        ⟨200, Json.obj [("open_issues", Json.num 4)]⟩).result = .ok :=
  C8_open_issues_printed.1 "7" "me/repo" _ (Json.num 4) rfl rfl

/-- C3: for every script, an HTTP response with a status other than 200
terminates the run with an uncaught exception naming the status code,
with nothing written to standard output.  For the paginated script this
holds for any request of a terminating run whose response is non-200. -/
theorem C3_non200_aborts :
    (∀ (url : String) (resp : Response), resp.status ≠ 200 →
      (get_issue_milestone url resp).stdout = [] ∧
      (get_issue_milestone url resp).result =
        .exn ("HTTP request failed: code " ++ toString resp.status)) ∧
    (∀ (number repo : String) (resp : Response), resp.status ≠ 200 →
      (get_milestone_open_issues number repo resp).stdout = [] ∧
      (get_milestone_open_issues number repo resp).result =
        .exn ("HTTP request failed: code " ++ toString resp.status)) ∧
    (∀ (url : String) (resp : Response), resp.status ≠ 200 →
      (get_project_name url resp).stdout = [] ∧
      (get_project_name url resp).result =
        .exn ("HTTP request failed: code " ++ toString resp.status)) ∧
    (∀ (fuel : Nat) (t s r : String) (srv : PageParams → Response)
      (run : MsRun) (req : PageParams),
      get_milestone_number fuel t s r srv = some run →
      req ∈ run.requests → (srv req).status ≠ 200 →
      run.stdout = [] ∧
      run.result = .exn ("HTTP request failed: code " ++ toString (srv req).status)) := by
  refine ⟨?_, ?_, ?_, ?_⟩
  · intro url resp h
    rw [get_issue_milestone, if_pos h]
    exact ⟨rfl, rfl⟩
  · intro number repo resp h
    rw [get_milestone_open_issues, if_pos h]
    exact ⟨rfl, rfl⟩
  · intro url resp h
    rw [get_project_name, if_pos h]
    exact ⟨rfl, rfl⟩
  · intro fuel t s r srv run req h hmem hst
    obtain ⟨out, hl, hreq, hcase⟩ := gmn_unfold fuel t s r srv run h
    rw [hreq] at hmem
    have hres := msLoop_non200 t s srv fuel 1 out req hl hmem hst
    rcases hcase with ⟨e, he, ho, hr⟩ | ⟨n, hn, _, _⟩
    · rw [he] at hres
      cases hres
      exact ⟨ho, hr⟩
    · rw [hn] at hres
      cases hres

theorem C3_witness :
    ((get_issue_milestone "u" ⟨404, Json.null⟩).stdout = [] ∧
      (get_issue_milestone "u" ⟨404, Json.null⟩).result =
        .exn ("HTTP request failed: code " ++ toString (404 : Nat))) ∧
    ((get_milestone_open_issues "7" "me/repo" ⟨500, Json.null⟩).stdout = [] ∧
      (get_milestone_open_issues "7" "me/repo" ⟨500, Json.null⟩).result =
        .exn ("HTTP request failed: code " ++ toString (500 : Nat))) ∧
    ((get_project_name "u" ⟨403, Json.null⟩).stdout = [] ∧
      (get_project_name "u" ⟨403, Json.null⟩).result =
        .exn ("HTTP request failed: code " ++ toString (403 : Nat))) :=
  ⟨C3_non200_aborts.1 "u" ⟨404, Json.null⟩ (by decide),
   C3_non200_aborts.2.1 "7" "me/repo" ⟨500, Json.null⟩ (by decide),
   C3_non200_aborts.2.2.1 "u" ⟨403, Json.null⟩ (by decide)⟩

/-- Server used in the end-to-end example: page 1 holds `v1.0` (number 3)
and `v2.0` (number 7); every later page is empty. -/
def exampleServer : PageParams → Response := fun req =>
  if req.page = 1 then
    ⟨200, Json.arr [Json.obj [("title", Json.str "v1.0"), ("number", Json.num 3)],
                    Json.obj [("title", Json.str "v2.0"), ("number", Json.num 7)]]⟩
  else ⟨200, Json.arr []⟩

/-- Server whose every page holds two milestones with the same title
`t`, numbered 1 and 2 in that order. -/
def dupTitleServer : PageParams → Response := fun _ =>
  ⟨200, Json.arr [Json.obj [("title", Json.str "t"), ("number", Json.num 1)],
                  Json.obj [("title", Json.str "t"), ("number", Json.num 2)]]⟩

/-- Server that answers every request with one milestone `m`, number 7. -/
def matchAnyServer : PageParams → Response := fun _ =>
  ⟨200, Json.arr [Json.obj [("title", Json.str "m"), ("number", Json.num 7)]]⟩

/-- Server that answers every request with an empty page. -/
def emptyServer : PageParams → Response := fun _ => ⟨200, Json.arr []⟩

/-- The run `get_milestone_number` produces against `matchAnyServer`
for title `m`, any state `s`. -/
def anyStateRun (s : String) : MsRun :=
  ⟨[mkParams s 1], ["7"],
   ["Fetching number of milestone " ++ pyQuote "m" ++ " of repo " ++ pyQuote "me/repo",
    "Milestone number: " ++ pyStr (Json.num 7)], .ok⟩

/-- C7: end-to-end instance of milestone-number resolution: with title
`v2.0` and state `open`, when page 1 (status 200) is
`[{title: v1.0, number: 3}, {title: v2.0, number: 7}]`, the script prints
exactly `7` to standard output and exits normally. -/
theorem C7_end_to_end :
    (get_milestone_number 1 "v2.0" "open" "me/repo" exampleServer).map MsRun.stdout =
      some ["7"] ∧
    (get_milestone_number 1 "v2.0" "open" "me/repo" exampleServer).map MsRun.result =
      some .ok :=
  ⟨rfl, rfl⟩

/-- C2 counterexample: when one page contains several milestones with the
matching title, the claim says the earliest one in the page wins, so with
page 1 equal to `[{title: t, number: 1}, {title: t, number: 2}]` it
predicts output `1`; the script actually prints `2` (the scan has no
`break`, so a later match overwrites an earlier one). -/
theorem C2_counterexample :
    (get_milestone_number 1 "t" "open" "me/repo" dupTitleServer).map MsRun.stdout =
      some ["2"] ∧
    some ["2"] ≠ some ["1"] :=
  ⟨rfl, by decide⟩

/-- C2 (amended): the page order part of the claim stands — the first
page, in ascending-due-date page order, containing an exact title match
determines the output — but within that page the LAST exact match in page
order wins, not the earliest: after `d` clean match-free pages, a 200
page `ms` that scans without error and contains a match makes the script
print the `number` of the last matching record of `ms`. -/
theorem C2_amended_last_match_wins (title state repo : String)
    (server : PageParams → Response) (d : Nat) (ms : List Json) (n : Json)
    (hclean : ∀ q, 1 ≤ q → q < 1 + d → continuesAt title state server q)
    (h200 : (server (mkParams state (1 + d))).status = 200)
    (hbody : (server (mkParams state (1 + d))).body = Json.arr ms)
    (hok : scanOk title ms = true) (hm : hasMatch title ms = true)
    (hn : lastMatchNum title ms none = some n) :
    (get_milestone_number (d + 1) title state repo server).map MsRun.stdout =
      some [pyStr n] ∧
    (get_milestone_number (d + 1) title state repo server).map MsRun.result =
      some .ok := by
  obtain ⟨lines, hstop⟩ := pageStep_match title _ ms n h200 hbody hok hm hn
  have hloop := msLoop_clean title state server d lines (.ok n) 1 hclean hstop
  rw [get_milestone_number, hloop]
  exact ⟨rfl, rfl⟩

theorem C2_witness :
    (get_milestone_number 1 "t" "open" "me/repo" dupTitleServer).map MsRun.stdout =
      some [pyStr (Json.num 2)] ∧
    (get_milestone_number 1 "t" "open" "me/repo" dupTitleServer).map MsRun.result =
      some .ok :=
  C2_amended_last_match_wins "t" "open" "me/repo" dupTitleServer 0
    [Json.obj [("title", Json.str "t"), ("number", Json.num 1)],
     Json.obj [("title", Json.str "t"), ("number", Json.num 2)]]
    (Json.num 2)
    (fun q h1 h2 => absurd h2 (by omega)) rfl rfl rfl rfl rfl

/-- C5: if, after `d` clean match-free pages, the response for page
`d + 1` is a 200 empty list, the script aborts with the uncaught
`Milestone not found` exception and prints nothing to standard output. -/
theorem C5_empty_page_not_found (title state repo : String)
    (server : PageParams → Response) (d : Nat)
    (hclean : ∀ q, 1 ≤ q → q < 1 + d → continuesAt title state server q)
    (h200 : (server (mkParams state (1 + d))).status = 200)
    (hemp : (server (mkParams state (1 + d))).body = Json.arr []) :
    (get_milestone_number (d + 1) title state repo server).map MsRun.stdout =
      some [] ∧
    (get_milestone_number (d + 1) title state repo server).map MsRun.result =
      some (.exn "Milestone not found") := by
  have hstop := pageStep_empty title _ h200 hemp
  have hloop := msLoop_clean title state server d [] (.error "Milestone not found") 1
    hclean hstop
  rw [get_milestone_number, hloop]
  exact ⟨rfl, rfl⟩

theorem C5_witness :
    (get_milestone_number 1 "t" "open" "me/repo" emptyServer).map MsRun.stdout =
      some [] ∧
    (get_milestone_number 1 "t" "open" "me/repo" emptyServer).map MsRun.result =
      some (.exn "Milestone not found") :=
  C5_empty_page_not_found "t" "open" "me/repo" emptyServer 0
    (fun q h1 h2 => absurd h2 (by omega)) rfl rfl

/-- C4: pagination traversal.  (1) Every terminating run requested pages
1, 2, 3, … in order, each with page size 100 and sort `due_on`
ascending, increasing the page index by exactly 1 per request.  (2) With
`d` clean match-free pages followed by a 200 page that is empty or
contains a match (whichever stopping condition comes first), the loop
stops exactly there, having requested pages 1 through `d + 1`.  (3) If
some page is empty or contains a match, the loop terminates (for some
fuel, the run completes). -/
theorem C4_pagination :
    (∀ (fuel : Nat) (t s r : String) (srv : PageParams → Response) (run : MsRun),
      get_milestone_number fuel t s r srv = some run →
      1 ≤ run.requests.length ∧
      run.requests =
        (List.range run.requests.length).map (fun i => mkParams s (1 + i))) ∧
    (∀ (d : Nat) (t s r : String) (srv : PageParams → Response),
      (∀ q, 1 ≤ q → q < 1 + d → continuesAt t s srv q) →
      (srv (mkParams s (1 + d))).status = 200 →
      ((srv (mkParams s (1 + d))).body = Json.arr [] ∨
        ∃ ms, (srv (mkParams s (1 + d))).body = Json.arr ms ∧
          scanOk t ms = true ∧ hasMatch t ms = true) →
      (get_milestone_number (d + 1) t s r srv).map MsRun.requests =
        some ((List.range (d + 1)).map (fun i => mkParams s (1 + i)))) ∧
    (∀ (t s r : String) (srv : PageParams → Response),
      (∃ p, 1 ≤ p ∧ ((srv (mkParams s p)).body = Json.arr [] ∨
        ∃ ms, (srv (mkParams s p)).body = Json.arr ms ∧ hasMatch t ms = true)) →
      ∃ fuel, (get_milestone_number fuel t s r srv).isSome = true) := by
  refine ⟨?_, ?_, ?_⟩
  · intro fuel t s r srv run h
    obtain ⟨out, hl, hreq, _⟩ := gmn_unfold fuel t s r srv run h
    obtain ⟨k, hk1, hk2⟩ := msLoop_trace t s srv fuel 1 out hl
    rw [hreq, hk2]
    refine ⟨?_, ?_⟩ <;> simp [hk1]
  · intro d t s r srv hclean h200 hcase
    rcases hcase with hemp | ⟨ms, hbody, hok, hm⟩
    · have hstop := pageStep_empty t _ h200 hemp
      have hloop := msLoop_clean t s srv d [] (.error "Milestone not found") 1
        hclean hstop
      rw [get_milestone_number, hloop]
      rfl
    · obtain ⟨lines0, hscan⟩ := scan_of_scanOk t ms none hok
      have hsome := scan_some_of_match t ms none _ hm hscan
      obtain ⟨n, hn⟩ := Option.isSome_iff_exists.mp hsome
      obtain ⟨lines, hstop⟩ := pageStep_match t _ ms n h200 hbody hok hm hn
      have hloop := msLoop_clean t s srv d lines (.ok n) 1 hclean hstop
      rw [get_milestone_number, hloop]
      rfl
  · intro t s r srv hex
    obtain ⟨p, hp1, hcase⟩ := hex
    refine ⟨(p - 1) + 1, ?_⟩
    have h1 : 1 + (p - 1) = p := by omega
    have hsome := msLoop_stops t s srv (p - 1) 1 (by rw [h1]; exact hcase)
    rw [get_milestone_number]
    cases hrec : msLoop t s srv ((p - 1) + 1) 1 with
    | none => rw [hrec] at hsome; cases hsome
    | some out =>
      simp only [hrec]
      cases hres : out.result with
      | error e => simp only [hres]; rfl
      | ok n => simp only [hres]; rfl

theorem C4_witness :
    (1 ≤ (anyStateRun "open").requests.length ∧
      (anyStateRun "open").requests =
        (List.range (anyStateRun "open").requests.length).map
          (fun i => mkParams "open" (1 + i))) ∧
    ((get_milestone_number 1 "m" "open" "me/repo" matchAnyServer).map MsRun.requests =
      some ((List.range 1).map (fun i => mkParams "open" (1 + i)))) ∧
    (∃ fuel, (get_milestone_number fuel "m" "open" "me/repo" matchAnyServer).isSome
      = true) :=
  ⟨C4_pagination.1 1 "m" "open" "me/repo" matchAnyServer (anyStateRun "open") rfl,
   C4_pagination.2.1 0 "m" "open" "me/repo" matchAnyServer
     (fun q h1 h2 => absurd h2 (by omega)) rfl
     (Or.inr ⟨[Json.obj [("title", Json.str "m"), ("number", Json.num 7)]],
       rfl, rfl, rfl⟩),
   C4_pagination.2.2 "m" "open" "me/repo" matchAnyServer
     ⟨1, le_refl 1,
       Or.inr ⟨[Json.obj [("title", Json.str "m"), ("number", Json.num 7)]],
         rfl, rfl⟩⟩⟩

/-- C10: the milestone-number script never validates its `state`
argument: every page request of every terminating run carries the input
state string verbatim as its `state` parameter, and for an arbitrary
state string (not just `open`, `closed` or `all`) the script runs to a
normal exit when the server answers. -/
theorem C10_state_forwarded :
    (∀ (fuel : Nat) (t s r : String) (srv : PageParams → Response)
      (run : MsRun) (req : PageParams),
      get_milestone_number fuel t s r srv = some run →
      req ∈ run.requests → req.state = s) ∧
    (∀ s : String,
      (get_milestone_number 1 "m" s "me/repo" matchAnyServer).map MsRun.stdout =
        some ["7"] ∧
      (get_milestone_number 1 "m" s "me/repo" matchAnyServer).map MsRun.result =
        some .ok) := by
  constructor
  · intro fuel t s r srv run req h hmem
    obtain ⟨out, hl, hreq, _⟩ := gmn_unfold fuel t s r srv run h
    obtain ⟨k, _, hk2⟩ := msLoop_trace t s srv fuel 1 out hl
    rw [hreq, hk2] at hmem
    simp only [List.mem_map] at hmem
    obtain ⟨i, _, hi⟩ := hmem
    rw [← hi]
    rfl
  · intro s
    exact ⟨rfl, rfl⟩

theorem C10_witness :
    (mkParams "weird-state" 1).state = "weird-state" ∧
    (get_milestone_number 1 "m" "weird-state" "me/repo" matchAnyServer).map
      MsRun.stdout = some ["7"] :=
  ⟨C10_state_forwarded.1 1 "m" "weird-state" "me/repo" matchAnyServer
      (anyStateRun "weird-state") (mkParams "weird-state" 1) rfl
      (List.mem_singleton.mpr rfl),
   (C10_state_forwarded.2 "weird-state").1⟩
